import Mathlib

/-!
Verification development for the telegram-auth Go library (verify.go).

The embedding models the package as pure Lean functions:

* Strings are Lean strings; where the Go code views them as byte slices
  (hashing, byte-wise sorting) we convert through an explicit UTF-8 encoder.
* Machine integers (int64 user ids, unix timestamps, time.Duration
  nanoseconds) are modelled as Int with explicit range checks where the Go
  code performs them (strconv.ParseInt).
* Go time.Time values are modelled as a pair of an int64 second count in
  the internal epoch of the time package (year one) and a nanosecond count,
  and time.Duration values as int64 nanosecond counts.  The arithmetic
  follows the Go implementation faithfully: time.Unix adds the 62135596800
  second epoch shift with two-complement int64 wrap-around, Add splits the
  duration with truncated division and wraps the second field, After,
  Before and Equal compare second-then-nanosecond, and Sub computes the
  wrapped nanosecond difference and saturates at the minimum or maximum
  Duration when the round-trip check fails, exactly as the library does.
  The Now function of the configuration is modelled as an explicit snapshot
  value (the spec guarantees it is sampled at most once per call).
* Go maps (map[string]string) are association lists; lookup of a missing
  key yields the empty string exactly as a Go map read does.
* The Go multi-return (AuthData, error) is a pair of the record and an
  optional error, so that the record accompanying an error is observable.
-/

set_option maxRecDepth 100000

namespace TelegramAuth

/-- Iterate a function n times, passing the iteration index, defined with
the bare Nat recursor so that kernel reduction is linear. -/
def natFold {beta : Type} (f : Nat → beta → beta) (n : Nat) (init : beta) : beta :=
  @Nat.rec (fun _ => beta) init (fun i ih => f i ih) n

/-- List concatenation defined with the bare list recursor. -/
def cat (a b : List Nat) : List Nat :=
  @List.rec Nat (fun _ => List Nat) b (fun x _ ih => x :: ih) a

/-- Indexing with a default, defined with the bare recursors. -/
def nthD (l : List Nat) (i d : Nat) : Nat :=
  @List.rec Nat (fun _ => Nat → Nat) (fun _ => d)
    (fun a _ ih => fun j => @Nat.rec (fun _ => Nat) a (fun k _ => ih k) j) l i

/-- A list of n copies of a value, defined with the bare Nat recursor. -/
def repK (n v : Nat) : List Nat :=
  @Nat.rec (fun _ => List Nat) [] (fun _ ih => v :: ih) n

/-- List reversal defined with the bare list recursor. -/
def listRev (l : List Nat) : List Nat :=
  @List.rec Nat (fun _ => List Nat → List Nat) (fun acc => acc)
    (fun a _ ih => fun acc => ih (a :: acc)) l []

/-- One byte of the UTF-8 encoding of a unicode scalar value, written with
division and remainder so that all range facts are pure arithmetic. -/
def utf8EncodeChar (n : Nat) : List Nat :=
  if n < 128 then [n]
  else if n < 2048 then [192 + n / 64, 128 + n % 64]
  else if n < 65536 then [224 + n / 4096, 128 + n / 64 % 64, 128 + n % 64]
  else [240 + n / 262144, 128 + n / 4096 % 64, 128 + n / 64 % 64, 128 + n % 64]

/-- UTF-8 bytes of a list of characters. -/
def utf8Bytes (cs : List Char) : List Nat :=
  @List.rec Char (fun _ => List Nat) []
    (fun c _ ih => cat (utf8EncodeChar c.toNat) ih) cs

/-- UTF-8 bytes of a string: the Go conversion from string to byte slice. -/
def strBytes (s : String) : List Nat :=
  utf8Bytes s.data

/-- Reduction of a machine word to 32 bits. -/
def wrap32 (n : Nat) : Nat := n % 4294967296

/-- Right rotation of a 32-bit word. -/
def rotr32 (x k : Nat) : Nat := wrap32 ((x >>> k) ||| (x <<< (32 - k)))

/-- Bitwise complement of a 32-bit word. -/
def not32 (x : Nat) : Nat := x ^^^ 4294967295

/-- The SHA-256 round constants. -/
def sha256K : List Nat :=
  [1116352408, 1899447441, 3049323471, 3921009573, 961987163, 1508970993,
   2453635748, 2870763221, 3624381080, 310598401, 607225278, 1426881987,
   1925078388, 2162078206, 2614888103, 3248222580, 3835390401, 4022224774,
   264347078, 604807628, 770255983, 1249150122, 1555081692, 1996064986,
   2554220882, 2821834349, 2952996808, 3210313671, 3336571891, 3584528711,
   113926993, 338241895, 666307205, 773529912, 1294757372, 1396182291,
   1695183700, 1986661051, 2177026350, 2456956037, 2730485921, 2820302411,
   3259730800, 3345764771, 3516065817, 3600352804, 4094571909, 275423344,
   430227734, 506948616, 659060556, 883997877, 958139571, 1322822218,
   1537002063, 1747873779, 1955562222, 2024104815, 2227730452, 2361852424,
   2428436474, 2756734187, 3204031479, 3329325298]

/-- The SHA-256 initial hash state. -/
def sha256H0 : List Nat :=
  [1779033703, 3144134277, 1013904242, 2773480762,
   1359893119, 2600822924, 528734635, 1541459225]

/-- Big-endian byte representation of a value in a fixed number of bytes. -/
def beBytes (n v : Nat) : List Nat :=
  (List.range n).map (fun i => (v >>> (8 * (n - 1 - i))) % 256)

/-- Big-endian 32-bit words of a byte list. -/
def toWordsBE : List Nat → List Nat
  | b0 :: b1 :: b2 :: b3 :: rest => (((b0 * 256 + b1) * 256 + b2) * 256 + b3) :: toWordsBE rest
  | _ => []

/-- SHA-256 message padding: a single 0x80 byte, zeros to 56 mod 64, and the
bit length as a 64-bit big-endian integer. -/
def sha256Pad (m : List Nat) : List Nat :=
  cat m (cat [128] (cat (repK ((119 - m.length % 64) % 64) 0) (beBytes 8 (8 * m.length))))

/-- Structural worker for the 64-byte block split; the fuel argument is an
upper bound on the number of blocks and makes the recursion structural so
that the kernel can evaluate it. -/
def chunks64Go : Nat → List Nat → List (List Nat)
  | 0, _ => []
  | _, [] => []
  | fuel + 1, a :: t => ((a :: t).take 64) :: chunks64Go fuel ((a :: t).drop 64)

/-- Split a byte list into 64-byte blocks. -/
def chunks64 (l : List Nat) : List (List Nat) :=
  chunks64Go l.length l

/-- One extension step of the message schedule; the accumulator holds the
words computed so far in reverse order, so the window indices are fixed. -/
def sha256ExtendStep (acc : List Nat) : List Nat :=
  let wm15 := nthD acc 14 0
  let wm2 := nthD acc 1 0
  let s0 := rotr32 wm15 7 ^^^ rotr32 wm15 18 ^^^ (wm15 >>> 3)
  let s1 := rotr32 wm2 17 ^^^ rotr32 wm2 19 ^^^ (wm2 >>> 10)
  wrap32 (nthD acc 15 0 + s0 + nthD acc 6 0 + s1) :: acc

/-- The sixty-four word message schedule of one block. -/
def sha256Schedule (block : List Nat) : List Nat :=
  listRev (natFold (fun _ acc => sha256ExtendStep acc) 48 (listRev (toWordsBE block)))

/-- One round of the SHA-256 compression function. -/
def sha256Round (w : List Nat) (i : Nat)
    (st : Nat × Nat × Nat × Nat × Nat × Nat × Nat × Nat) :
    Nat × Nat × Nat × Nat × Nat × Nat × Nat × Nat :=
  let (a, b, c, d, e, f, g, hh) := st
  let S1 := rotr32 e 6 ^^^ rotr32 e 11 ^^^ rotr32 e 25
  let ch := (e &&& f) ^^^ (not32 e &&& g)
  let t1 := wrap32 (hh + S1 + ch + nthD sha256K i 0 + nthD w i 0)
  let S0 := rotr32 a 2 ^^^ rotr32 a 13 ^^^ rotr32 a 22
  let mj := (a &&& b) ^^^ (a &&& c) ^^^ (b &&& c)
  let t2 := wrap32 (S0 + mj)
  (wrap32 (t1 + t2), a, b, c, wrap32 (d + t1), e, f, g)

/-- The SHA-256 compression function applied to one 64-byte block. -/
def sha256Block (h : List Nat) (block : List Nat) : List Nat :=
  let w := sha256Schedule block
  let init := (nthD h 0 0, nthD h 1 0, nthD h 2 0, nthD h 3 0,
               nthD h 4 0, nthD h 5 0, nthD h 6 0, nthD h 7 0)
  let st := natFold (sha256Round w) 64 init
  let (a, b, c, d, e, f, g, hh) := st
  [wrap32 (nthD h 0 0 + a), wrap32 (nthD h 1 0 + b), wrap32 (nthD h 2 0 + c),
   wrap32 (nthD h 3 0 + d), wrap32 (nthD h 4 0 + e), wrap32 (nthD h 5 0 + f),
   wrap32 (nthD h 6 0 + g), wrap32 (nthD h 7 0 + hh)]

/-- The digest bytes of a word state. -/
def wordsToBytes (ws : List Nat) : List Nat :=
  @List.rec Nat (fun _ => List Nat) [] (fun w _ ih => cat (beBytes 4 w) ih) ws

/-- SHA-256 of a byte list, as the 32 digest bytes. -/
def sha256 (m : List Nat) : List Nat :=
  wordsToBytes ((chunks64 (sha256Pad m)).foldl sha256Block sha256H0)

example : sha256 (strBytes "abc") =
    [0xba, 0x78, 0x16, 0xbf, 0x8f, 0x01, 0xcf, 0xea, 0x41, 0x41, 0x40, 0xde, 0x5d, 0xae, 0x22,
     0x23, 0xb0, 0x03, 0x61, 0xa3, 0x96, 0x17, 0x7a, 0x9c, 0xb4, 0x10, 0xff, 0x61, 0xf2, 0x00,
     0x15, 0xad] := by decide

/-- HMAC-SHA256 as computed by the Go hmac package for a SHA-256 inner hash:
keys longer than the 64-byte block are first hashed, the key is zero padded
to the block size, and the digest is H((key xor opad) ++ H((key xor ipad) ++ msg)). -/
def hmacSha256 (key msg : List Nat) : List Nat :=
  let key0 := if 64 < key.length then sha256 key else key
  let key1 := key0 ++ List.replicate (64 - key0.length) 0
  let ipad := key1.map (fun b => b ^^^ 54)
  let opad := key1.map (fun b => b ^^^ 92)
  sha256 (opad ++ sha256 (ipad ++ msg))

/-- Value of one hexadecimal digit character, upper or lower case. -/
def hexDigitVal? (c : Char) : Option Nat :=
  if 48 ≤ c.toNat ∧ c.toNat ≤ 57 then some (c.toNat - 48)
  else if 97 ≤ c.toNat ∧ c.toNat ≤ 102 then some (c.toNat - 87)
  else if 65 ≤ c.toNat ∧ c.toNat ≤ 70 then some (c.toNat - 55)
  else none

/-- Hex decoding of a character list: fails on an odd number of digits or on
any non-hex character, as hex.DecodeString does. -/
def hexDecodeChars : List Char → Option (List Nat)
  | [] => some []
  | [_] => none
  | a :: b :: rest =>
    match hexDigitVal? a, hexDigitVal? b, hexDecodeChars rest with
    | some x, some y, some tail => some ((16 * x + y) :: tail)
    | _, _, _ => none

/-- Model of hex.DecodeString. -/
def hexDecode? (s : String) : Option (List Nat) :=
  hexDecodeChars s.data

/-- Lower-case hexadecimal digit character. -/
def hexDigitChar (n : Nat) : Char :=
  if n < 10 then Char.ofNat (48 + n) else Char.ofNat (87 + n)

/-- Model of hex.EncodeToString, used by the test-suite signing helper. -/
def hexEncode (bs : List Nat) : String :=
  ⟨bs.foldr (fun b acc => hexDigitChar (b / 16) :: hexDigitChar (b % 16) :: acc) []⟩

/-- The unicode white-space predicate used by strings.TrimSpace. -/
def goIsSpace (c : Char) : Bool :=
  [9, 10, 11, 12, 13, 32, 133, 160, 5760, 8232, 8233, 8239, 8287, 12288].contains c.toNat
  || decide (8192 ≤ c.toNat ∧ c.toNat ≤ 8202)

/-- Model of strings.TrimSpace: drop white space from both ends. -/
def trimSpace (s : String) : String :=
  ⟨((s.data.dropWhile goIsSpace).reverse.dropWhile goIsSpace).reverse⟩

/-- Value of one decimal digit character. -/
def digitVal? (c : Char) : Option Nat :=
  if 48 ≤ c.toNat ∧ c.toNat ≤ 57 then some (c.toNat - 48) else none

/-- Decimal value of a non-empty all-digit character list. -/
def parseDigits? (cs : List Char) : Option Nat :=
  match cs with
  | [] => none
  | _ =>
    cs.foldl (fun acc c =>
      match acc, digitVal? c with
      | some a, some d => some (10 * a + d)
      | _, _ => none) (some 0)

/-- Model of strconv.ParseInt(s, 10, 64): optional single sign, at least one
digit, base ten only, and the value must fit a signed 64-bit integer. -/
def parseInt64? (s : String) : Option Int :=
  let signed : Bool × List Char :=
    match s.data with
    | '-' :: rest => (true, rest)
    | '+' :: rest => (false, rest)
    | rest => (false, rest)
  match parseDigits? signed.2 with
  | none => none
  | some n =>
    if signed.1 then
      if n ≤ 9223372036854775808 then some (-(n : Int)) else none
    else
      if n ≤ 9223372036854775807 then some ((n : Int)) else none

/-- Byte-wise lexicographic comparison of byte lists, as Boolean. -/
def bytesLe : List Nat → List Nat → Bool
  | [], _ => true
  | _ :: _, [] => false
  | a :: as, b :: bs => if a < b then true else if b < a then false else bytesLe as bs

/-- Byte-wise lexicographic order on strings through their UTF-8 bytes; this
is the order sort.Strings establishes. -/
def strLe (a b : String) : Prop :=
  bytesLe (strBytes a) (strBytes b) = true

instance : DecidableRel strLe :=
  fun a b => inferInstanceAs (Decidable (bytesLe (strBytes a) (strBytes b) = true))

/-- Sorting a list of strings into byte-wise lexicographic order: the model
of sort.Strings. -/
def sortStrings (l : List String) : List String :=
  List.insertionSort strLe l

/-- Go map read with the zero-value convention: the value under a key, or
the empty string when the key is absent. -/
def qget (query : List (String × String)) (key : String) : String :=
  match query.find? (fun p => p.1 == key) with
  | some p => p.2
  | none => ""

/-- The key=value strings of every field except the hash field. -/
def checkPairs (query : List (String × String)) : List String :=
  (query.filter (fun p => p.1 ≠ "hash")).map (fun p => p.1 ++ "=" ++ p.2)

/-- The data-check string of verifyHash: sorted key=value pairs joined by a
single newline. -/
def dataCheckString (query : List (String × String)) : String :=
  String.intercalate "\n" (sortStrings (checkPairs query))

/-- The error taxonomy of the package; the two invalid-value errors carry
the offending raw text that fmt.Errorf attaches. -/
inductive VerifyError where
  | botTokenRequired : VerifyError
  | telegramIDRequired : VerifyError
  | telegramIDInvalid : String → VerifyError
  | telegramHashRequired : VerifyError
  | telegramHashInvalid : VerifyError
  | telegramAuthDateRequired : VerifyError
  | telegramAuthDateInvalid : String → VerifyError
  | telegramAuthDateExpired : VerifyError
  | telegramAuthDateFuture : VerifyError
deriving DecidableEq, Repr

/-- Validated Telegram user fields; userID and authDateUnix model int64. -/
structure AuthData where
  userID : Int
  username : String
  firstName : String
  lastName : String
  photoURL : String
  authDateUnix : Int
deriving DecidableEq, Repr

/-- The Go zero value AuthData that accompanies every error return. -/
def zeroAuthData : AuthData := ⟨0, "", "", "", "", 0⟩

/-- Default maximum age for auth_date, in nanoseconds (5 minutes). -/
def DefaultAuthTTL : Int := 300000000000

/-- Default allowed future skew for auth_date, in nanoseconds (30 seconds). -/
def DefaultClockSkew : Int := 30000000000

/-! ### The Go time model

The Go time package stores an absolute time as an int64 second count since
January 1 of year 1 plus a nanosecond count in [0, 10^9); the arithmetic
below reproduces the library operations the verifier uses, including the
two-complement wrap-around of the int64 second field and the saturation of
Sub at the Duration limits. -/

/-- Two-complement wrap of an integer into the int64 range. -/
def wrap64 (n : Int) : Int :=
  (n + 9223372036854775808) % 18446744073709551616 - 9223372036854775808

/-- Truncated (toward zero) division by a positive divisor, the division Go
uses on integers. -/
def tdiv (a b : Int) : Int := if 0 ≤ a then a / b else -((-a) / b)

/-- The remainder matching tdiv, the Go modulo. -/
def tmod (a b : Int) : Int := a - b * tdiv a b

/-- The largest time.Duration value. -/
def maxDuration : Int := 9223372036854775807

/-- The smallest time.Duration value. -/
def minDuration : Int := -9223372036854775808

/-- A Go time.Time without a monotonic reading: the int64 second count in
the internal epoch and the nanosecond count in [0, 10^9). -/
structure GoTime where
  sec : Int
  nsec : Int
deriving DecidableEq, Repr

/-- The number of seconds between the internal epoch (year 1) and the unix
epoch, as the time package defines it. -/
def unixToInternal : Int := 62135596800

/-- Model of time.Unix(sec, 0): the epoch shift is added with int64
wrap-around, as the Go int64 addition does. -/
def timeUnix (sec : Int) : GoTime := ⟨wrap64 (sec + unixToInternal), 0⟩

/-- Model of Time.After: second-then-nanosecond comparison. -/
def timeAfter (t u : GoTime) : Bool :=
  decide (u.sec < t.sec) || (decide (t.sec = u.sec) && decide (u.nsec < t.nsec))

/-- Model of Time.Before. -/
def timeBefore (t u : GoTime) : Bool :=
  decide (t.sec < u.sec) || (decide (t.sec = u.sec) && decide (t.nsec < u.nsec))

/-- Model of Time.Equal for times without monotonic readings. -/
def timeEqual (t u : GoTime) : Bool :=
  decide (t.sec = u.sec) && decide (t.nsec = u.nsec)

/-- Model of Time.Add: the duration is split with truncated division, the
nanosecond field is normalised with a single carry, and the second field is
added with int64 wrap-around. -/
def timeAdd (t : GoTime) (d : Int) : GoTime :=
  let dsec := tdiv d 1000000000
  let nsec := t.nsec + tmod d 1000000000
  if 1000000000 ≤ nsec then ⟨wrap64 (t.sec + (dsec + 1)), nsec - 1000000000⟩
  else if nsec < 0 then ⟨wrap64 (t.sec + (dsec - 1)), nsec + 1000000000⟩
  else ⟨wrap64 (t.sec + dsec), nsec⟩

/-- Model of Time.Sub: the difference is computed in wrapping int64
arithmetic and checked by adding it back; when the round trip fails the
result saturates at minDuration or maxDuration by the sign of the true
difference. -/
def timeSub (t u : GoTime) : Int :=
  let d := wrap64 (wrap64 (wrap64 (t.sec - u.sec) * 1000000000) + (t.nsec - u.nsec))
  if timeEqual (timeAdd u d) t then d
  else if timeBefore t u then minDuration
  else maxDuration

/-- Configuration of VerifyWithConfig: durations in nanoseconds, and the
time the Now function returns. -/
structure VerifyConfig where
  authTTL : Int
  clockSkew : Int
  now : GoTime
deriving DecidableEq, Repr

/-- The effective TTL: a zero or negative configured duration means default. -/
def effAuthTTL (config : VerifyConfig) : Int :=
  if config.authTTL ≤ 0 then DefaultAuthTTL else config.authTTL

/-- The effective clock skew: zero or negative means default. -/
def effClockSkew (config : VerifyConfig) : Int :=
  if config.clockSkew ≤ 0 then DefaultClockSkew else config.clockSkew

/-- Model of verifyHash: decode the trimmed claimed signature from hex,
derive the key as SHA-256 of the bot token, HMAC the data-check string and
compare; both failure modes give telegramHashInvalid. -/
def verifyHash (query : List (String × String)) (botToken expectedHash : String) :
    Option VerifyError :=
  match hexDecode? (trimSpace expectedHash) with
  | none => some VerifyError.telegramHashInvalid
  | some expectedHashBytes =>
    let secret := sha256 (strBytes botToken)
    let calculatedHashBytes := hmacSha256 secret (strBytes (dataCheckString query))
    if calculatedHashBytes = expectedHashBytes then none
    else some VerifyError.telegramHashInvalid

/-- Model of VerifyWithConfig, returning the pair of the record and the
optional error exactly as the Go multi-return does. -/
def VerifyWithConfig (query : List (String × String)) (botToken : String)
    (config : VerifyConfig) : AuthData × Option VerifyError :=
  let botToken := trimSpace botToken
  if botToken = "" then (zeroAuthData, some VerifyError.botTokenRequired) else
  let authTTL := effAuthTTL config
  let clockSkew := effClockSkew config
  let hash := trimSpace (qget query "hash")
  if hash = "" then (zeroAuthData, some VerifyError.telegramHashRequired) else
  match verifyHash query botToken hash with
  | some e => (zeroAuthData, some e)
  | none =>
    let idValue := trimSpace (qget query "id")
    if idValue = "" then (zeroAuthData, some VerifyError.telegramIDRequired) else
    match parseInt64? idValue with
    | none => (zeroAuthData, some (VerifyError.telegramIDInvalid idValue))
    | some userID =>
      if userID ≤ 0 then (zeroAuthData, some (VerifyError.telegramIDInvalid idValue)) else
      let authDateValue := trimSpace (qget query "auth_date")
      if authDateValue = "" then (zeroAuthData, some VerifyError.telegramAuthDateRequired) else
      match parseInt64? authDateValue with
      | none => (zeroAuthData, some (VerifyError.telegramAuthDateInvalid authDateValue))
      | some authDateUnix =>
        let authDate := timeUnix authDateUnix
        if timeAfter authDate (timeAdd config.now clockSkew) = true then
          (zeroAuthData, some VerifyError.telegramAuthDateFuture)
        else if timeSub config.now authDate > authTTL then
          (zeroAuthData, some VerifyError.telegramAuthDateExpired)
        else
          (⟨userID, qget query "username", qget query "first_name",
            qget query "last_name", qget query "photo_url", authDateUnix⟩, none)

/-- Model of Verify: VerifyWithConfig with the zero configuration; the wall
clock read by the nil Now function is passed as an explicit instant. -/
def Verify (query : List (String × String)) (botToken : String) (now : GoTime) :
    AuthData × Option VerifyError :=
  VerifyWithConfig query botToken ⟨0, 0, now⟩

/-- Model of url.Values.Get: the first value under the key, or empty. -/
def valuesGet (values : List (String × List String)) (key : String) : String :=
  match values.find? (fun p => p.1 == key) with
  | some (_, v :: _) => v
  | _ => ""

/-- The single-valued map VerifyURLValues builds from a url.Values. -/
def flattenValues (values : List (String × List String)) : List (String × String) :=
  values.map (fun p => (p.1, valuesGet values p.1))

/-- Model of VerifyURLValues: flatten to first values, then delegate. -/
def VerifyURLValues (values : List (String × List String)) (botToken : String)
    (now : GoTime) : AuthData × Option VerifyError :=
  Verify (flattenValues values) botToken now

/-- The hex signature the test-suite helper signQuery computes over a query. -/
def signQuery (query : List (String × String)) (botToken : String) : String :=
  hexEncode (hmacSha256 (sha256 (strBytes botToken)) (strBytes (dataCheckString query)))

example : dataCheckString
    [("id", "42"), ("hash", "zz"), ("auth_date", "1800000000"), ("username", "john_doe"),
     ("first_name", "John"), ("last_name", "Doe"),
     ("photo_url", "https://example.com/avatar.jpg")] =
    "auth_date=1800000000\nfirst_name=John\nid=42\nlast_name=Doe\nphoto_url=https://example.com/avatar.jpg\nusername=john_doe" := by decide

/-! ### Bridge lemmas for the recursor-based helpers -/

theorem cat_cons (x : Nat) (xs b : List Nat) : cat (x :: xs) b = x :: cat xs b := rfl

theorem cat_eq_append (a b : List Nat) : cat a b = a ++ b := by
  induction a with
  | nil => rfl
  | cons x xs ih => rw [cat_cons, ih]; rfl

theorem utf8Bytes_nil : utf8Bytes [] = [] := rfl

theorem utf8Bytes_cons (c : Char) (cs : List Char) :
    utf8Bytes (c :: cs) = utf8EncodeChar c.toNat ++ utf8Bytes cs := by
  rw [← cat_eq_append]; rfl

/-! ### Injectivity of the UTF-8 encoding -/

theorem char_toNat_lt (c : Char) : c.toNat < 1114112 := by
  show c.val.toNat < 1114112
  rcases c.valid with h | h
  · omega
  · rcases h with ⟨h1, h2⟩; omega

theorem utf8EncodeChar_ne_nil (n : Nat) : utf8EncodeChar n ≠ [] := by
  unfold utf8EncodeChar; split_ifs <;> simp

theorem utf8EncodeChar_head_len (m n : Nat) (hm : m < 1114112) (hn : n < 1114112)
    (h : (utf8EncodeChar m).headD 0 = (utf8EncodeChar n).headD 0) :
    (utf8EncodeChar m).length = (utf8EncodeChar n).length := by
  unfold utf8EncodeChar at h ⊢
  split_ifs at h ⊢ <;> simp_all <;> omega

theorem utf8EncodeChar_inj (m n : Nat) (hm : m < 1114112) (hn : n < 1114112)
    (h : utf8EncodeChar m = utf8EncodeChar n) : m = n := by
  unfold utf8EncodeChar at h
  split_ifs at h <;> simp_all <;> omega

theorem utf8EncodeChar_append_inj (m n : Nat) (hm : m < 1114112) (hn : n < 1114112)
    (xs ys : List Nat) (h : utf8EncodeChar m ++ xs = utf8EncodeChar n ++ ys) :
    m = n ∧ xs = ys := by
  obtain ⟨a, as, ha⟩ := List.exists_cons_of_ne_nil (utf8EncodeChar_ne_nil m)
  obtain ⟨b, bs, hb⟩ := List.exists_cons_of_ne_nil (utf8EncodeChar_ne_nil n)
  have h2 := h
  rw [ha, hb] at h2
  simp only [List.cons_append, List.cons.injEq] at h2
  have hhead : (utf8EncodeChar m).headD 0 = (utf8EncodeChar n).headD 0 := by
    rw [ha, hb]; simp [h2.1]
  have hlen := utf8EncodeChar_head_len m n hm hn hhead
  obtain ⟨henc, hrest⟩ := List.append_inj h hlen
  exact ⟨utf8EncodeChar_inj m n hm hn henc, hrest⟩

theorem utf8Bytes_injective : ∀ {cs ds : List Char}, utf8Bytes cs = utf8Bytes ds → cs = ds := by
  intro cs
  induction cs with
  | nil =>
    intro ds h
    cases ds with
    | nil => rfl
    | cons d dt =>
      rw [utf8Bytes_nil, utf8Bytes_cons] at h
      exact absurd (List.append_eq_nil.mp h.symm).1 (utf8EncodeChar_ne_nil _)
  | cons c ct ih =>
    intro ds h
    cases ds with
    | nil =>
      rw [utf8Bytes_nil, utf8Bytes_cons] at h
      exact absurd (List.append_eq_nil.mp h).1 (utf8EncodeChar_ne_nil _)
    | cons d dt =>
      rw [utf8Bytes_cons, utf8Bytes_cons] at h
      obtain ⟨h1, h2⟩ :=
        utf8EncodeChar_append_inj _ _ (char_toNat_lt c) (char_toNat_lt d) _ _ h
      have hc : c = d := Char.ext (UInt32.toNat.inj h1)
      rw [hc, ih h2]

theorem strBytes_injective {a b : String} (h : strBytes a = strBytes b) : a = b :=
  congrArg String.mk (utf8Bytes_injective h)

/-! ### The byte-wise order is a total order -/

theorem bytesLe_total (a : List Nat) : ∀ b, bytesLe a b = true ∨ bytesLe b a = true := by
  induction a with
  | nil => intro b; left; rfl
  | cons x xs ih =>
    intro b
    cases b with
    | nil => right; rfl
    | cons y ys =>
      simp only [bytesLe]
      rcases Nat.lt_trichotomy x y with h | h | h
      · left; simp [h]
      · subst h
        simpa [Nat.lt_irrefl] using ih ys
      · right; simp [h]

theorem bytesLe_trans : ∀ {a b c : List Nat},
    bytesLe a b = true → bytesLe b c = true → bytesLe a c = true := by
  intro a
  induction a with
  | nil => intro b c _ _; rfl
  | cons x xs ih =>
    intro b c h1 h2
    cases b with
    | nil => simp [bytesLe] at h1
    | cons y ys =>
      cases c with
      | nil => simp [bytesLe] at h2
      | cons z zs =>
        simp only [bytesLe] at h1 h2 ⊢
        split_ifs at h1 h2 ⊢ <;>
          first
          | rfl
          | exact ih h1 h2
          | omega
          | simp_all
          | (exfalso; omega)

theorem bytesLe_antisymm : ∀ {a b : List Nat},
    bytesLe a b = true → bytesLe b a = true → a = b := by
  intro a
  induction a with
  | nil =>
    intro b h1 h2
    cases b with
    | nil => rfl
    | cons y ys => simp [bytesLe] at h2
  | cons x xs ih =>
    intro b h1 h2
    cases b with
    | nil => simp [bytesLe] at h1
    | cons y ys =>
      rcases Nat.lt_trichotomy x y with hxy | hxy | hxy
      · simp [bytesLe, if_neg (Nat.lt_asymm hxy), if_pos hxy] at h2
      · subst hxy
        simp only [bytesLe, if_neg (Nat.lt_irrefl x)] at h1 h2
        rw [ih h1 h2]
      · simp [bytesLe, if_neg (Nat.lt_asymm hxy), if_pos hxy] at h1

instance : IsTotal String strLe :=
  ⟨fun a b => bytesLe_total (strBytes a) (strBytes b)⟩

instance : IsTrans String strLe :=
  ⟨fun _ _ _ h1 h2 => bytesLe_trans h1 h2⟩

instance : IsAntisymm String strLe :=
  ⟨fun _ _ h1 h2 => strBytes_injective (bytesLe_antisymm h1 h2)⟩

theorem sortStrings_perm (l : List String) : (sortStrings l).Perm l :=
  List.perm_insertionSort strLe l

theorem sortStrings_sorted (l : List String) : (sortStrings l).Sorted strLe :=
  List.sorted_insertionSort strLe l

theorem sorted_perm_eq_sortStrings (l l2 : List String) (hp : l2.Perm l)
    (hs : l2.Sorted strLe) : l2 = sortStrings l :=
  List.eq_of_perm_of_sorted (hp.trans (sortStrings_perm l).symm) hs (sortStrings_sorted l)

/-! ### Equation lemmas that inline the local lets of the source functions -/

theorem verifyHash_eq (query : List (String × String)) (botToken expectedHash : String) :
    verifyHash query botToken expectedHash =
      match hexDecode? (trimSpace expectedHash) with
      | none => some VerifyError.telegramHashInvalid
      | some expectedHashBytes =>
        if hmacSha256 (sha256 (strBytes botToken)) (strBytes (dataCheckString query)) =
            expectedHashBytes then none
        else some VerifyError.telegramHashInvalid := rfl

theorem dataCheckString_eq (query : List (String × String)) :
    dataCheckString query = String.intercalate "\n" (sortStrings (checkPairs query)) := rfl

theorem verifyHash_eq_none (query : List (String × String)) (botToken expectedHash : String)
    (h : hexDecode? (trimSpace expectedHash) = none) :
    verifyHash query botToken expectedHash = some VerifyError.telegramHashInvalid := by
  rw [verifyHash_eq, h]

theorem verifyHash_eq_some (query : List (String × String)) (botToken expectedHash : String)
    (bs : List Nat) (h : hexDecode? (trimSpace expectedHash) = some bs) :
    verifyHash query botToken expectedHash =
      if hmacSha256 (sha256 (strBytes botToken)) (strBytes (dataCheckString query)) = bs
      then none else some VerifyError.telegramHashInvalid := by
  rw [verifyHash_eq, h]

/-- C1: the signature verifier accepts exactly when the hex decoding of the
trimmed claimed signature equals the HMAC-SHA256, keyed with SHA-256 of the
UTF-8 bytes of the trimmed secret, of the single-newline join of the byte-wise
lexicographically sorted key=value strings of every field except the hash
field (stated through any sorted arrangement of those strings). -/
theorem claimC1 (query : List (String × String)) (secret sig : String) :
    verifyHash query (trimSpace secret) sig = none ↔
      ∃ pairs : List String, pairs.Perm (checkPairs query) ∧ pairs.Sorted strLe ∧
        hexDecode? (trimSpace sig) =
          some (hmacSha256 (sha256 (strBytes (trimSpace secret)))
            (strBytes (String.intercalate "\n" pairs))) := by
  cases hdec : hexDecode? (trimSpace sig) with
  | none =>
    rw [verifyHash_eq_none _ _ _ hdec]
    constructor
    · intro h; cases h
    · rintro ⟨pairs, -, -, hdec2⟩; cases hdec2
  | some bs =>
    rw [verifyHash_eq_some _ _ _ _ hdec]
    constructor
    · intro h
      by_cases hcmp : hmacSha256 (sha256 (strBytes (trimSpace secret)))
          (strBytes (dataCheckString query)) = bs
      · refine ⟨sortStrings (checkPairs query), sortStrings_perm _, sortStrings_sorted _, ?_⟩
        rw [← hcmp, dataCheckString_eq]
      · rw [if_neg hcmp] at h; cases h
    · rintro ⟨pairs, hperm, hsort, heq⟩
      have hp : pairs = sortStrings (checkPairs query) :=
        sorted_perm_eq_sortStrings _ _ hperm hsort
      subst hp
      rw [dataCheckString_eq]
      rw [if_pos (Option.some.inj heq).symm]

theorem VerifyWithConfig_eq (query : List (String × String)) (botToken : String)
    (config : VerifyConfig) :
    VerifyWithConfig query botToken config =
      if trimSpace botToken = "" then (zeroAuthData, some VerifyError.botTokenRequired)
      else if trimSpace (qget query "hash") = "" then
        (zeroAuthData, some VerifyError.telegramHashRequired)
      else
        match verifyHash query (trimSpace botToken) (trimSpace (qget query "hash")) with
        | some e => (zeroAuthData, some e)
        | none =>
          if trimSpace (qget query "id") = "" then
            (zeroAuthData, some VerifyError.telegramIDRequired)
          else
            match parseInt64? (trimSpace (qget query "id")) with
            | none =>
              (zeroAuthData, some (VerifyError.telegramIDInvalid (trimSpace (qget query "id"))))
            | some userID =>
              if userID ≤ 0 then
                (zeroAuthData, some (VerifyError.telegramIDInvalid (trimSpace (qget query "id"))))
              else if trimSpace (qget query "auth_date") = "" then
                (zeroAuthData, some VerifyError.telegramAuthDateRequired)
              else
                match parseInt64? (trimSpace (qget query "auth_date")) with
                | none =>
                  (zeroAuthData,
                   some (VerifyError.telegramAuthDateInvalid (trimSpace (qget query "auth_date"))))
                | some authDateUnix =>
                  if timeAfter (timeUnix authDateUnix)
                      (timeAdd config.now (effClockSkew config)) = true then
                    (zeroAuthData, some VerifyError.telegramAuthDateFuture)
                  else if timeSub config.now (timeUnix authDateUnix) > effAuthTTL config then
                    (zeroAuthData, some VerifyError.telegramAuthDateExpired)
                  else
                    (⟨userID, qget query "username", qget query "first_name",
                      qget query "last_name", qget query "photo_url", authDateUnix⟩, none) := rfl

/-- The verdicts of the nine checks of the validation pipeline, each
evaluated on its own, listed in the order the specification fixes (the two
range checks of the timestamp are split into the future check and the age
check, giving ten entries). -/
def checkResults (query : List (String × String)) (botToken : String)
    (config : VerifyConfig) : List (Option VerifyError) :=
  [if trimSpace botToken = "" then some VerifyError.botTokenRequired else none,
   if trimSpace (qget query "hash") = "" then some VerifyError.telegramHashRequired else none,
   verifyHash query (trimSpace botToken) (trimSpace (qget query "hash")),
   if trimSpace (qget query "id") = "" then some VerifyError.telegramIDRequired else none,
   match parseInt64? (trimSpace (qget query "id")) with
   | none => some (VerifyError.telegramIDInvalid (trimSpace (qget query "id")))
   | some _ => none,
   match parseInt64? (trimSpace (qget query "id")) with
   | some v =>
     if v ≤ 0 then some (VerifyError.telegramIDInvalid (trimSpace (qget query "id"))) else none
   | none => none,
   if trimSpace (qget query "auth_date") = "" then
     some VerifyError.telegramAuthDateRequired else none,
   match parseInt64? (trimSpace (qget query "auth_date")) with
   | none => some (VerifyError.telegramAuthDateInvalid (trimSpace (qget query "auth_date")))
   | some _ => none,
   match parseInt64? (trimSpace (qget query "auth_date")) with
   | some t =>
     if timeAfter (timeUnix t) (timeAdd config.now (effClockSkew config)) = true then
       some VerifyError.telegramAuthDateFuture else none
   | none => none,
   match parseInt64? (trimSpace (qget query "auth_date")) with
   | some t =>
     if timeSub config.now (timeUnix t) > effAuthTTL config then
       some VerifyError.telegramAuthDateExpired else none
   | none => none]

theorem findSome_id_cons_none (l : List (Option VerifyError)) :
    (none :: l).findSome? id = l.findSome? id := rfl

theorem findSome_id_cons_some (e : VerifyError) (l : List (Option VerifyError)) :
    (some e :: l).findSome? id = some e := rfl

/-- C2: verification runs the checks in the fixed order of the
specification and returns the verdict of the first check that fails (the
error component equals the first non-passing entry of checkResults); in
particular a request whose signature does not verify is rejected with the
integrity error, whatever its identifier and timestamp fields hold. -/
theorem claimC2 (query : List (String × String)) (botToken : String)
    (config : VerifyConfig) :
    (VerifyWithConfig query botToken config).2 =
      (checkResults query botToken config).findSome? id ∧
    (∀ e, trimSpace botToken ≠ "" → trimSpace (qget query "hash") ≠ "" →
      verifyHash query (trimSpace botToken) (trimSpace (qget query "hash")) = some e →
      (VerifyWithConfig query botToken config).2 = some e) := by
  constructor
  · rw [VerifyWithConfig_eq]
    unfold checkResults
    by_cases h1 : trimSpace botToken = ""
    · simp [h1, findSome_id_cons_some]
    simp only [if_neg h1]
    rw [findSome_id_cons_none]
    by_cases h2 : trimSpace (qget query "hash") = ""
    · simp [h2, findSome_id_cons_some]
    simp only [if_neg h2]
    rw [findSome_id_cons_none]
    cases hv : verifyHash query (trimSpace botToken) (trimSpace (qget query "hash")) with
    | some e => simp [findSome_id_cons_some]
    | none =>
      rw [findSome_id_cons_none]
      by_cases h3 : trimSpace (qget query "id") = ""
      · simp [h3, findSome_id_cons_some]
      simp only [if_neg h3]
      rw [findSome_id_cons_none]
      cases hp : parseInt64? (trimSpace (qget query "id")) with
      | none => simp [findSome_id_cons_some]
      | some v =>
        rw [findSome_id_cons_none]
        by_cases h4 : v ≤ 0
        · simp [h4, findSome_id_cons_some]
        simp only [if_neg h4]
        rw [findSome_id_cons_none]
        by_cases h5 : trimSpace (qget query "auth_date") = ""
        · simp [h5, findSome_id_cons_some]
        simp only [if_neg h5]
        rw [findSome_id_cons_none]
        cases hq : parseInt64? (trimSpace (qget query "auth_date")) with
        | none => simp [findSome_id_cons_some]
        | some t =>
          rw [findSome_id_cons_none]
          by_cases h6 : timeAfter (timeUnix t) (timeAdd config.now (effClockSkew config)) = true
          · simp [h6, findSome_id_cons_some]
          simp only [if_neg h6]
          rw [findSome_id_cons_none]
          by_cases h7 : timeSub config.now (timeUnix t) > effAuthTTL config
          · simp [h7, findSome_id_cons_some]
          simp [if_neg h7, List.findSome?]
  · intro e h1 h2 hv
    rw [VerifyWithConfig_eq, if_neg h1, if_neg h2, hv]

/-- C4: a claimed signature that is not valid hexadecimal and a well-formed
one whose HMAC differs from the computed digest fail with the same
telegramHashInvalid error kind. -/
theorem claimC4 (query : List (String × String)) (botToken sig : String) :
    (hexDecode? (trimSpace sig) = none →
      verifyHash query botToken sig = some VerifyError.telegramHashInvalid) ∧
    (∀ bs : List Nat, hexDecode? (trimSpace sig) = some bs →
      hmacSha256 (sha256 (strBytes botToken)) (strBytes (dataCheckString query)) ≠ bs →
      verifyHash query botToken sig = some VerifyError.telegramHashInvalid) := by
  refine ⟨fun h => verifyHash_eq_none _ _ _ h, fun bs h hne => ?_⟩
  rw [verifyHash_eq_some _ _ _ _ h, if_neg hne]

/-- C7: a shared secret that is empty after trimming always fails with the
configuration error, whatever the input holds. -/
theorem claimC7 (query : List (String × String)) (botToken : String) (config : VerifyConfig)
    (h : trimSpace botToken = "") :
    VerifyWithConfig query botToken config =
      (zeroAuthData, some VerifyError.botTokenRequired) := by
  rw [VerifyWithConfig_eq, if_pos h]

theorem VerifyWithConfig_zero_or_ok (query : List (String × String)) (botToken : String)
    (config : VerifyConfig) :
    (VerifyWithConfig query botToken config).1 = zeroAuthData ∨
    (VerifyWithConfig query botToken config).2 = none := by
  rw [VerifyWithConfig_eq]
  repeat' split
  all_goals simp

/-- C9: whenever verification reports an error the accompanying record is
the zero record. -/
theorem claimC9 (query : List (String × String)) (botToken : String) (config : VerifyConfig)
    (e : VerifyError) (h : (VerifyWithConfig query botToken config).2 = some e) :
    (VerifyWithConfig query botToken config).1 = zeroAuthData := by
  rcases VerifyWithConfig_zero_or_ok query botToken config with hz | hok
  · exact hz
  · rw [h] at hok; cases hok

/-- C6: for a correctly signed input with a present identifier field, an
identifier that does not parse as a base-10 signed 64-bit integer and one
that parses to a non-positive value both yield the telegramIDInvalid error
carrying the raw identifier text, while the identifier 42 passes both the
format and the range check. -/
theorem claimC6 (query : List (String × String)) (botToken : String) (config : VerifyConfig)
    (h1 : trimSpace botToken ≠ "") (h2 : trimSpace (qget query "hash") ≠ "")
    (hv : verifyHash query (trimSpace botToken) (trimSpace (qget query "hash")) = none)
    (h3 : trimSpace (qget query "id") ≠ "") :
    (parseInt64? (trimSpace (qget query "id")) = none →
      (VerifyWithConfig query botToken config).2 =
        some (VerifyError.telegramIDInvalid (trimSpace (qget query "id")))) ∧
    (∀ v : Int, parseInt64? (trimSpace (qget query "id")) = some v → v ≤ 0 →
      (VerifyWithConfig query botToken config).2 =
        some (VerifyError.telegramIDInvalid (trimSpace (qget query "id")))) ∧
    (trimSpace (qget query "id") = "42" →
      (VerifyWithConfig query botToken config).2 ≠ some VerifyError.telegramIDRequired ∧
      ∀ s : String,
        (VerifyWithConfig query botToken config).2 ≠
          some (VerifyError.telegramIDInvalid s)) := by
  rw [VerifyWithConfig_eq, if_neg h1, if_neg h2, hv]
  refine ⟨fun hp => ?_, fun v hp hneg => ?_, fun h42 => ?_⟩
  · simp [if_neg h3, hp]
  · simp [if_neg h3, hp, if_pos hneg]
  · rw [h42]
    have hp42 : parseInt64? "42" = some 42 := rfl
    have hne : ("42" : String) ≠ "" := by decide
    simp only [if_neg hne, hp42]
    rw [if_neg (by norm_num : ¬ (42 : Int) ≤ 0)]
    constructor
    · repeat' split
      all_goals simp
    · intro s
      repeat' split
      all_goals simp

/-! ### The adapter (claim C8) -/

theorem qget_map_flatten (W vs : List (String × List String)) (k : String) :
    qget (vs.map (fun q => (q.1, valuesGet W q.1))) k =
      match vs.find? (fun p => p.1 == k) with
      | some p => valuesGet W p.1
      | none => "" := by
  induction vs with
  | nil => rfl
  | cons q vs ih =>
    cases hk : (q.1 == k) with
    | true =>
      simp only [List.map_cons, qget, List.find?_cons, hk]
    | false =>
      simp only [List.map_cons, qget, List.find?_cons, hk] at ih ⊢
      exact ih

/-- A multi-valued input whose id key carries the two values 42 and 999,
signed over its flattened form as the test suite does. -/
def demoValues : List (String × List String) :=
  [("id", ["42", "999"]), ("auth_date", ["1800000000"]), ("username", ["john_doe"]),
   ("first_name", ["John"]),
   ("hash", ["f1ff648acefed8133ae820efb5dac9a03691ecdf644bbfca099515271571230d"])]

/-- C8: the url.Values adapter flattens its input to the single-valued map
that keeps the first value of every key and delegates to the core verify
with the zero configuration, performing no validation of its own; on the
multi-valued demo input whose id key holds 42 and 999 the verified record
carries identifier 42. -/
theorem claimC8 (values : List (String × List String)) (botToken : String) (now : GoTime) :
    VerifyURLValues values botToken now =
      VerifyWithConfig (flattenValues values) botToken ⟨0, 0, now⟩ ∧
    (∀ key, qget (flattenValues values) key = valuesGet values key) ∧
    VerifyURLValues demoValues "test-token" ⟨63935596800, 0⟩ =
      (⟨42, "john_doe", "John", "", "", 1800000000⟩, none) := by
  refine ⟨rfl, fun key => ?_, by decide⟩
  unfold flattenValues
  rw [qget_map_flatten]
  cases hf : values.find? (fun p => p.1 == key) with
  | none => simp [valuesGet, hf]
  | some p =>
    have hbeq := List.find?_some hf
    have hk : p.1 = key := eq_of_beq hbeq
    simp only [hk]

/-! ### Trimming of the claimed signature (claim C10) -/

theorem dropWhile_append_of_all {p : Char → Bool} (a b : List Char)
    (h : ∀ x ∈ a, p x = true) :
    List.dropWhile p (a ++ b) = List.dropWhile p b := by
  induction a with
  | nil => rfl
  | cons x xs ih =>
    simp [List.dropWhile, h x (by simp), ih (fun y hy => h y (by simp [hy]))]

theorem dropWhile_append_of_ne_nil {p : Char → Bool} (m b : List Char)
    (h : List.dropWhile p m ≠ []) :
    List.dropWhile p (m ++ b) = List.dropWhile p m ++ b := by
  induction m with
  | nil => exact absurd rfl h
  | cons x xs ih =>
    cases hx : p x with
    | true =>
      rw [List.dropWhile_cons_of_pos hx] at h
      simp [List.dropWhile, hx, ih h]
    | false =>
      simp [List.dropWhile, hx]

theorem trimSpace_pad (v ws1 ws2 : String)
    (hw1 : ∀ c ∈ ws1.data, goIsSpace c = true)
    (hw2 : ∀ c ∈ ws2.data, goIsSpace c = true) :
    trimSpace (ws1 ++ v ++ ws2) = trimSpace v := by
  unfold trimSpace
  apply congrArg String.mk
  rw [String.data_append, String.data_append]
  rw [List.append_assoc, dropWhile_append_of_all ws1.data _ hw1]
  by_cases hdm : List.dropWhile goIsSpace v.data = []
  · rw [dropWhile_append_of_all v.data ws2.data (List.dropWhile_eq_nil_iff.mp hdm),
      List.dropWhile_eq_nil_iff.mpr hw2, hdm]
  · rw [dropWhile_append_of_ne_nil v.data ws2.data hdm, List.reverse_append,
      dropWhile_append_of_all ws2.data.reverse _
        (fun c hc => hw2 c (List.mem_reverse.mp hc))]

theorem qget_head (key val : String) (rest : List (String × String)) :
    qget ((key, val) :: rest) key = val := by
  simp [qget, List.find?_cons]

theorem qget_cons_ne (key x : String) (rest : List (String × String)) (k : String)
    (h : (key == k) = false) : qget ((key, x) :: rest) k = qget rest k := by
  simp only [qget, List.find?_cons, h]

theorem checkPairs_hash_cons (x : String) (rest : List (String × String)) :
    checkPairs (("hash", x) :: rest) = checkPairs rest := by
  simp [checkPairs]

theorem dataCheckString_hash_cons (x : String) (rest : List (String × String)) :
    dataCheckString (("hash", x) :: rest) = dataCheckString rest := by
  rw [dataCheckString_eq, dataCheckString_eq, checkPairs_hash_cons]

theorem verifyHash_hash_cons (x : String) (rest : List (String × String))
    (botToken expectedHash : String) :
    verifyHash (("hash", x) :: rest) botToken expectedHash =
      verifyHash rest botToken expectedHash := by
  rw [verifyHash_eq, verifyHash_eq, dataCheckString_hash_cons]

/-- C10: the claimed signature is trimmed of surrounding white space before
hex decoding, so padding the hash field value with white space on either
side never changes the outcome of verification; in particular a correctly
signed input stays accepted. -/
theorem claimC10 (rest : List (String × String)) (v botToken : String)
    (config : VerifyConfig) (ws1 ws2 : String)
    (hw1 : ∀ c ∈ ws1.data, goIsSpace c = true)
    (hw2 : ∀ c ∈ ws2.data, goIsSpace c = true) :
    VerifyWithConfig (("hash", ws1 ++ v ++ ws2) :: rest) botToken config =
      VerifyWithConfig (("hash", v) :: rest) botToken config := by
  rw [VerifyWithConfig_eq, VerifyWithConfig_eq, qget_head, qget_head,
    trimSpace_pad v ws1 ws2 hw1 hw2,
    verifyHash_hash_cons (ws1 ++ v ++ ws2), verifyHash_hash_cons v,
    qget_cons_ne "hash" (ws1 ++ v ++ ws2) rest "id" (by decide),
    qget_cons_ne "hash" v rest "id" (by decide),
    qget_cons_ne "hash" (ws1 ++ v ++ ws2) rest "auth_date" (by decide),
    qget_cons_ne "hash" v rest "auth_date" (by decide),
    qget_cons_ne "hash" (ws1 ++ v ++ ws2) rest "username" (by decide),
    qget_cons_ne "hash" v rest "username" (by decide),
    qget_cons_ne "hash" (ws1 ++ v ++ ws2) rest "first_name" (by decide),
    qget_cons_ne "hash" v rest "first_name" (by decide),
    qget_cons_ne "hash" (ws1 ++ v ++ ws2) rest "last_name" (by decide),
    qget_cons_ne "hash" v rest "last_name" (by decide),
    qget_cons_ne "hash" (ws1 ++ v ++ ws2) rest "photo_url" (by decide),
    qget_cons_ne "hash" v rest "photo_url" (by decide)]

/-! ### Concrete witnesses -/

/-- The unsigned part of a small valid query. -/
def wqBase : List (String × String) := [("id", "42"), ("auth_date", "1800000000")]

/-- The small valid query, carrying its correct signature. -/
def wqGood : List (String × String) :=
  ("hash", "42977edf6d80c3263731647ca83d3e1fb78d8aad1445ba9e1e0dcbcc0054c20f") :: wqBase

/-- A query whose signature is not hexadecimal and whose identifier and
timestamp are both invalid. -/
def wqBad : List (String × String) := [("hash", "zz"), ("id", "0"), ("auth_date", "nope")]

/-- A correctly signed query whose identifier is zero. -/
def wqId0 : List (String × String) :=
  [("hash", "9e10ee2946b6d944568c0806c43b216c1ad6ce896d5febfc6691761e20b8d7cc"),
   ("id", "0"), ("auth_date", "1800000000")]

/-- A correctly signed query whose identifier does not parse. -/
def wqIdAbc : List (String × String) :=
  [("hash", "ab3c283e5239b2daa16c63867024705b668a86285c0c9a641fbb214df9e16306"),
   ("id", "abc"), ("auth_date", "1800000000")]

/-- The model time whose unix reading is 1800000000 seconds. -/
def wnow : GoTime := ⟨63935596800, 0⟩

/-- The default configuration with the clock frozen at the signing instant. -/
def wcfg : VerifyConfig := ⟨0, 0, wnow⟩

theorem claimC2_witness :
    (VerifyWithConfig wqBad "test-token" wcfg).2 = some VerifyError.telegramHashInvalid :=
  (claimC2 wqBad "test-token" wcfg).2 VerifyError.telegramHashInvalid
    (by decide) (by decide) (by decide)

theorem claimC4_witness :
    verifyHash wqBase "test-token" "zz" = some VerifyError.telegramHashInvalid ∧
    verifyHash wqBase "test-token" "00" = some VerifyError.telegramHashInvalid :=
  ⟨(claimC4 wqBase "test-token" "zz").1 (by decide),
   (claimC4 wqBase "test-token" "00").2 [0] (by decide) (by decide)⟩

theorem claimC6_witness :
    (VerifyWithConfig wqIdAbc "test-token" wcfg).2 =
      some (VerifyError.telegramIDInvalid "abc") ∧
    (VerifyWithConfig wqId0 "test-token" wcfg).2 =
      some (VerifyError.telegramIDInvalid "0") ∧
    (VerifyWithConfig wqGood "test-token" wcfg).2 ≠ some VerifyError.telegramIDRequired := by
  refine ⟨?_, ?_, ?_⟩
  · exact (claimC6 wqIdAbc "test-token" wcfg (by decide) (by decide) (by decide)
      (by decide)).1 (by decide)
  · exact (claimC6 wqId0 "test-token" wcfg (by decide) (by decide) (by decide)
      (by decide)).2.1 0 (by decide) (by decide)
  · exact ((claimC6 wqGood "test-token" wcfg (by decide) (by decide) (by decide)
      (by decide)).2.2 (by decide)).1

theorem claimC7_witness :
    VerifyWithConfig wqGood "  " wcfg = (zeroAuthData, some VerifyError.botTokenRequired) :=
  claimC7 wqGood "  " wcfg (by decide)

theorem claimC9_witness : (VerifyWithConfig wqGood "" wcfg).1 = zeroAuthData :=
  claimC9 wqGood "" wcfg VerifyError.botTokenRequired (by decide)

theorem claimC10_witness :
    VerifyWithConfig
      (("hash",
        " " ++ "42977edf6d80c3263731647ca83d3e1fb78d8aad1445ba9e1e0dcbcc0054c20f" ++ "\n")
        :: wqBase) "test-token" wcfg =
      (⟨42, "", "", "", "", 1800000000⟩, none) := by
  rw [claimC10 wqBase "42977edf6d80c3263731647ca83d3e1fb78d8aad1445ba9e1e0dcbcc0054c20f"
    "test-token" wcfg " " "\n" (by decide) (by decide)]
  decide

/-! ### Counterexamples to the unqualified freshness claims -/

end TelegramAuth
